import Mathlib

/-!
Shallow embedding of the escape-room clue system
(源: 密室游戏/clue-system.js).

The JavaScript module is single-threaded and synchronous; every mutating
method is embedded as a pure function returning the outcome together with
the updated state.  JavaScript `Map`s are embedded as association lists in
insertion order (`Map.set` replaces in place, `Map.delete` removes the
entry), which matches reachable `Map` states since keys stay distinct.
The debug logger is a side channel that never alters control flow and is
omitted.  Scene-object 3D positions are opaque to the core (never read by
any operation) and are omitted as well.  The `digit` argument of
`enterDigit` is a single character, and the float `progress` ratio is
embedded as a rational number.
-/

/-- Item: collectible template / instance (class Item). -/
structure Item where
  id : String
  name : String
  description : String
  icon : String
  canCollect : Bool
  collected : Bool
  consumable : Bool
  usesLeft : Int

/-- Item.clone(): field-by-field copy. -/
def Item.clone (item : Item) : Item :=
  { id := item.id, name := item.name, description := item.description,
    icon := item.icon, canCollect := item.canCollect,
    collected := item.collected, consumable := item.consumable,
    usesLeft := item.usesLeft }

/-- Item.use(): decrements usesLeft when consumable and uses remain. -/
def Item.use (item : Item) : Bool × Item :=
  if item.consumable && 0 < item.usesLeft then
    (true, { item with usesLeft := item.usesLeft - 1 })
  else
    (false, item)

/-- Inventory: Map from item id to item, capacity bound (class Inventory). -/
structure Inventory where
  items : List Item
  maxSlots : Nat

/-- Map.set on the association list: replace in place, else append. -/
def replaceById : List Item → Item → List Item
  | [], item => [item]
  | x :: xs, item =>
      if x.id == item.id then item :: xs else x :: replaceById xs item

/-- Map.delete on the association list: drop the (unique) entry. -/
def removeById : List Item → String → List Item
  | [], _ => []
  | x :: xs, itemId => if x.id == itemId then xs else x :: removeById xs itemId

/-- Inventory.hasItem(itemId). -/
def Inventory.hasItem (inv : Inventory) (itemId : String) : Bool :=
  inv.items.any (fun i => i.id == itemId)

/-- Inventory.getItem(itemId). -/
def Inventory.getItem (inv : Inventory) (itemId : String) : Option Item :=
  inv.items.find? (fun i => i.id == itemId)

/-- Inventory.addItem(item): full → false; duplicate that is collectable and
not consumable → false; otherwise Map.set and true. -/
def Inventory.addItem (inv : Inventory) (item : Item) : Bool × Inventory :=
  if inv.maxSlots ≤ inv.items.length then
    (false, inv)
  else
    match inv.getItem item.id with
    | some existingItem =>
        if existingItem.canCollect && !existingItem.consumable then
          (false, inv)
        else
          (true, { inv with items := replaceById inv.items item })
    | none => (true, { inv with items := replaceById inv.items item })

/-- Inventory.removeItem(itemId). -/
def Inventory.removeItem (inv : Inventory) (itemId : String) : Bool × Inventory :=
  if inv.hasItem itemId then
    (true, { inv with items := removeById inv.items itemId })
  else
    (false, inv)

/-- Inventory.getAllItems(): insertion-order snapshot. -/
def Inventory.getAllItems (inv : Inventory) : List Item :=
  inv.items

/-- Inventory.getItemCount(): Map size. -/
def Inventory.getItemCount (inv : Inventory) : Nat :=
  inv.items.length

/-- Inventory.clear(). -/
def Inventory.clear (inv : Inventory) : Inventory :=
  { inv with items := [] }

/-- GameState: states map plus independent flags map (class GameState). -/
structure GameState where
  states : List (String × Bool)
  flags : List (String × Bool)

/-- Map.set on a string-keyed boolean association list. -/
def setPair : List (String × Bool) → String → Bool → List (String × Bool)
  | [], key, value => [(key, value)]
  | (k, v) :: rest, key, value =>
      if k == key then (key, value) :: rest else (k, v) :: setPair rest key value

/-- GameState.set(key, value). -/
def GameState.set (gs : GameState) (key : String) (value : Bool) : GameState :=
  { gs with states := setPair gs.states key value }

/-- GameState.get(key): stored value, absent ⇒ false (`get(key) || false`). -/
def GameState.get (gs : GameState) (key : String) : Bool :=
  (gs.states.lookup key).getD false

/-- GameState.has(key). -/
def GameState.has (gs : GameState) (key : String) : Bool :=
  (gs.states.lookup key).isSome

/-- GameState.setFlag(flag, value). -/
def GameState.setFlag (gs : GameState) (flag : String) (value : Bool) : GameState :=
  { gs with flags := setPair gs.flags flag value }

/-- GameState.hasFlag(flag): `flags.get(flag) || false`. -/
def GameState.hasFlag (gs : GameState) (flag : String) : Bool :=
  (gs.flags.lookup flag).getD false

/-- TriggerCondition: the four condition kinds (class TriggerCondition). -/
inductive TriggerCondition where
  | has_item (targetItemId : String)
  | no_item (targetItemId : String)
  | state_equals (requiredState : String)
  | always

/-- TriggerCondition.evaluate(inventory, gameState).  The dispatch is a
closed sum type, so the JS `default: return false` branch is unreachable. -/
def TriggerCondition.evaluate (c : TriggerCondition) (inventory : Inventory)
    (gameState : GameState) : Bool :=
  match c with
  | .has_item targetItemId => inventory.hasItem targetItemId
  | .no_item targetItemId => !(inventory.hasItem targetItemId)
  | .state_equals requiredState => gameState.get requiredState == true
  | .always => true

/-- InteractionAction: the six action kinds with their payloads
(class InteractionAction; tag strings become constructors). -/
inductive InteractionAction where
  | show_message (title message hint : String)
  | give_item (itemId : String)
  | require_item (itemId failMessage failHint : String)
  | consume_item (itemId : String)
  | check_password (correctPassword : String)
      (successActions : List InteractionAction) (failMessage failHint : String)
  | set_state (key : String) (value : Bool)

/-- Structured outcome record returned by engine operations; absent JS
object fields are `none`. -/
structure Outcome where
  success : Bool
  type : Option String := none
  message : Option String := none
  title : Option String := none
  hint : Option String := none
  item : Option Item := none
  locked : Option Bool := none
  progress : Option ℚ := none
  payload : Option (String × List InteractionAction × String × String) := none

/-- Interaction: conditions, ordered actions, executed flag
(class Interaction). -/
structure Interaction where
  id : String
  name : String
  description : String
  conditions : List TriggerCondition
  actions : List InteractionAction
  executed : Bool

/-- Interaction.canExecute: every condition holds (logical AND). -/
def Interaction.canExecute (i : Interaction) (inventory : Inventory)
    (gameState : GameState) : Bool :=
  i.conditions.all (fun c => c.evaluate inventory gameState)

/-- SceneObject (class SceneObject); the 3D position is opaque to the core
and omitted. `triggers` is the reserved, unused extension point. -/
structure SceneObject where
  id : String
  name : String
  description : String
  interactions : List Interaction
  triggers : List TriggerCondition

/-- PasswordSystem: bounded-attempt digit-entry state machine
(class PasswordSystem). -/
structure PasswordSystem where
  correctPassword : String
  enteredPassword : String
  maxAttempts : Int
  attemptsLeft : Int
  locked : Bool

/-- PasswordSystem constructor: maxAttempts 3, attemptsLeft = maxAttempts. -/
def PasswordSystem.mkInit (correctPassword : String) : PasswordSystem :=
  { correctPassword := correctPassword, enteredPassword := "",
    maxAttempts := 3, attemptsLeft := 3, locked := false }

/-- PasswordSystem.enterDigit(digit). -/
def PasswordSystem.enterDigit (ps : PasswordSystem) (digit : Char) :
    Outcome × PasswordSystem :=
  if ps.locked then
    ({ success := false, message := some "密码锁已锁定" }, ps)
  else if ps.enteredPassword.length < ps.correctPassword.length then
    let entered := ps.enteredPassword.push digit
    ({ success := true,
       progress := some ((entered.length : ℚ) / (ps.correctPassword.length : ℚ)) },
     { ps with enteredPassword := entered })
  else
    ({ success := false, message := some "密码已满" }, ps)

/-- PasswordSystem.reset(). -/
def PasswordSystem.reset (ps : PasswordSystem) : PasswordSystem :=
  { ps with
    enteredPassword := ""
    attemptsLeft := ps.maxAttempts
    locked := false }

/-- PasswordSystem.submitPassword(). -/
def PasswordSystem.submitPassword (ps : PasswordSystem) :
    Outcome × PasswordSystem :=
  if ps.locked then
    ({ success := false, message := some "密码锁已锁定" }, ps)
  else if ps.enteredPassword == ps.correctPassword then
    ({ success := true, message := some "密码正确！锁已打开" }, ps.reset)
  else
    let attemptsLeft := ps.attemptsLeft - 1
    let ps1 := { ps with attemptsLeft := attemptsLeft, enteredPassword := "" }
    if attemptsLeft ≤ 0 then
      ({ success := false, message := some "密码错误，密码锁已锁定！",
         locked := some true },
       { ps1 with locked := true })
    else
      ({ success := false,
         message := some ("密码错误，剩余" ++ toString attemptsLeft ++ "次尝试机会") },
       ps1)

/-- PasswordSystem.getDisplay(): one mask character per entered digit. -/
def PasswordSystem.getDisplay (ps : PasswordSystem) : String :=
  String.mk (List.replicate ps.enteredPassword.length '*')

/-- Item catalog (initGameData): small_key and golden_key are made
consumable after construction. -/
def smallKeyItem : Item :=
  { id := "small_key", name := "🔑 小钥匙",
    description := "一把银色的小钥匙，可以打开抽屉", icon := "🔑",
    canCollect := true, collected := false, consumable := true, usesLeft := 1 }

def goldenKeyItem : Item :=
  { id := "golden_key", name := "🔑 金钥匙",
    description := "一把金色的钥匙，这是打开房门的钥匙！", icon := "🔑",
    canCollect := true, collected := false, consumable := true, usesLeft := 1 }

def crumpledPaperItem : Item :=
  { id := "crumpled_paper", name := "📄 皱纸团",
    description := "从垃圾桶里找到的纸团，上面写着：7-2-4-9", icon := "📄",
    canCollect := true, collected := false, consumable := false, usesLeft := 1 }

def diaryItem : Item :=
  { id := "diary", name := "📔 日记本",
    description := "日记最后一页：记住，密码锁的顺序是反的", icon := "📔",
    canCollect := true, collected := false, consumable := false, usesLeft := 1 }

/-- `this.items` lookup: the per-run catalog dictionary, never mutated
after initGameData. -/
def catalogItems (itemId : String) : Option Item :=
  if itemId == "small_key" then some smallKeyItem
  else if itemId == "golden_key" then some goldenKeyItem
  else if itemId == "crumpled_paper" then some crumpledPaperItem
  else if itemId == "diary" then some diaryItem
  else none

/-- initInteractions: 垃圾桶 trash_search. -/
def trashInteraction : Interaction :=
  { id := "trash_search", name := "翻找垃圾桶", description := "在垃圾桶里翻找",
    conditions := [.always],
    actions :=
      [.give_item "crumpled_paper",
       .show_message "📄 发现线索"
         "你在垃圾桶里找到了一张皱巴巴的纸团，上面潦草地写着数字：7-2-4-9"
         "也许这是某个锁的密码？"],
    executed := false }

/-- initInteractions: 盆栽 plant_check. -/
def plantInteraction : Interaction :=
  { id := "plant_check", name := "检查盆栽", description := "检查盆栽土壤",
    conditions := [.no_item "small_key"],
    actions :=
      [.give_item "small_key",
       .show_message "🔑 发现钥匙"
         "你在花盆的土壤里发现了一把银色的小钥匙！这把钥匙看起来可以打开什么东西..."
         "去书桌抽屉试试看？"],
    executed := false }

/-- initInteractions: 书桌抽屉 drawer_open. -/
def drawerInteraction : Interaction :=
  { id := "drawer_open", name := "打开抽屉", description := "尝试打开书桌抽屉",
    conditions := [.always],
    actions :=
      [.require_item "small_key" "❌ 需要小钥匙"
         "抽屉被锁住了，需要找到钥匙。试着在房间里搜索一下...",
       .consume_item "small_key",
       .give_item "diary",
       .show_message "📔 获得日记"
         "抽屉打开了！你发现了一本日记。\n\n日记的最后一页写着：\"记住，密码锁的顺序是反的...\""
         "密码顺序是反的！7-2-4-9反过来就是9-4-2-7"],
    executed := false }

/-- initInteractions: 保险箱 safe_open. -/
def safeInteraction : Interaction :=
  { id := "safe_open", name := "打开保险箱", description := "尝试打开保险箱",
    conditions := [.always],
    actions :=
      [.check_password "9427"
         [.give_item "golden_key",
          .show_message "🎉 保险箱打开了！"
            "咔哒！保险箱打开了！\n\n里面有一把金色的钥匙，这一定是打开房门的钥匙！"
            "带着这把钥匙去开门吧！"]
         "❌ 密码错误" "再想想其他线索..."],
    executed := false }

/-- initInteractions: 房门 door_unlock. -/
def doorInteraction : Interaction :=
  { id := "door_unlock", name := "开门", description := "尝试打开房门",
    conditions := [.always],
    actions :=
      [.require_item "golden_key" "❌ 需要金钥匙"
         "门被牢牢锁住了，需要找到钥匙...",
       .show_message "🚪 成功逃脱！"
         "你用金钥匙打开了房门！\n\nCongratulations! 你成功逃脱了密室！"
         "🎉 游戏通关！",
       .set_state "gameComplete" true] ,
    executed := false }

/-- ClueSystem run state: inventory, game state, password system and the
per-run scene-object graph (the catalog dictionary is never mutated). -/
structure ClueSystem where
  inventory : Inventory
  gameState : GameState
  passwordSystem : PasswordSystem
  sceneObjects : List SceneObject

/-- A fresh ClueSystem (constructor + initGameData + initInteractions). -/
def ClueSystem.init : ClueSystem :=
  { inventory := { items := [], maxSlots := 20 },
    gameState := { states := [], flags := [] },
    passwordSystem := PasswordSystem.mkInit "9427",
    sceneObjects :=
      [{ id := "trash_bin", name := "🗑️ 垃圾桶", description := "一个金属垃圾桶",
         interactions := [trashInteraction], triggers := [] },
       { id := "plant", name := "🪴 盆栽", description := "一盆枯萎的绿植",
         interactions := [plantInteraction], triggers := [] },
       { id := "desk_drawer", name := "🗝️ 书桌抽屉", description := "需要钥匙才能打开",
         interactions := [drawerInteraction], triggers := [] },
       { id := "safe", name := "🔒 保险箱", description := "需要输入4位密码",
         interactions := [safeInteraction], triggers := [] },
       { id := "door", name := "🚪 房门", description := "被密码锁锁住了",
         interactions := [doorInteraction], triggers := [] }] }

/-- `this.sceneObjects.get(objectId)`. -/
def ClueSystem.findObject (s : ClueSystem) (objectId : String) :
    Option SceneObject :=
  s.sceneObjects.find? (fun o => o.id == objectId)

/-- `interaction.executed = true` on the first interaction of the object. -/
def markFirstExecuted : List Interaction → List Interaction
  | [] => []
  | i :: rest => { i with executed := true } :: rest

/-- Set the executed flag of the dispatched (first) interaction of the
object with this id. -/
def ClueSystem.markExecuted (s : ClueSystem) (objectId : String) : ClueSystem :=
  { s with sceneObjects :=
      s.sceneObjects.map (fun o =>
        if o.id == objectId then
          { o with interactions := markFirstExecuted o.interactions }
        else o) }

/-- ClueSystem.executeAction(action): one action of the six kinds. -/
def ClueSystem.executeAction (s : ClueSystem) (action : InteractionAction) :
    Outcome × ClueSystem :=
  match action with
  | .show_message title message hint =>
      ({ success := true, type := some "show_message", title := some title,
         message := some message, hint := some hint }, s)
  | .give_item itemId =>
      match catalogItems itemId with
      | none => ({ success := false, message := some "错误：物品不存在" }, s)
      | some item =>
          if s.inventory.hasItem item.id then
            ({ success := true, type := some "item_owned", item := some item }, s)
          else
            let (added, inv) := s.inventory.addItem item.clone
            if added then
              ({ success := true, type := some "item_received",
                 item := some item },
               { s with inventory := inv })
            else
              ({ success := false, message := some "无法获得物品" }, s)
  | .require_item itemId failMessage failHint =>
      if s.inventory.hasItem itemId then
        ({ success := true, type := some "requirement_met" }, s)
      else
        ({ success := false, type := some "requirement_missing",
           message := some failMessage, hint := some failHint }, s)
  | .consume_item itemId =>
      let (removed, inv) := s.inventory.removeItem itemId
      if removed then
        ({ success := true, type := some "item_consumed" },
         { s with inventory := inv })
      else
        ({ success := false, message := some "无法消耗物品" }, s)
  | .check_password correctPassword successActions failMessage failHint =>
      ({ success := true, type := some "password_required",
         payload := some (correctPassword, successActions, failMessage, failHint) },
       s)
  | .set_state key value =>
      ({ success := true, type := some "state_set" },
       { s with gameState := s.gameState.set key value })

/-- ClueSystem.executeActions(actions): run in order, short-circuit on the
first failure; when all succeed return the generic completion record. -/
def ClueSystem.executeActions (s : ClueSystem) :
    List InteractionAction → Outcome × ClueSystem
  | [] => ({ success := true, message := some "操作完成" }, s)
  | action :: rest =>
      let (result, s1) := s.executeAction action
      if result.success then s1.executeActions rest else (result, s1)

/-- ClueSystem.interact(objectId). -/
def ClueSystem.interact (s : ClueSystem) (objectId : String) :
    Outcome × ClueSystem :=
  match s.findObject objectId with
  | none => ({ success := false, message := some "错误：对象不存在" }, s)
  | some object =>
      match object.interactions with
      | [] => ({ success := false, message := some "这个物品没有什么特别的..." }, s)
      | interaction :: _ =>
          if interaction.canExecute s.inventory s.gameState then
            let (result, s1) := s.executeActions interaction.actions
            if result.success then (result, s1.markExecuted objectId)
            else (result, s1)
          else
            ({ success := false, message := some "现在不能这样做..." }, s)

/-- ClueSystem.enterPasswordDigit(digit). -/
def ClueSystem.enterPasswordDigit (s : ClueSystem) (digit : Char) :
    Outcome × ClueSystem :=
  let (result, ps) := s.passwordSystem.enterDigit digit
  (result, { s with passwordSystem := ps })

/-- ClueSystem.submitPassword(): on success set the safeOpened flag and the
safePasswordKnown state. -/
def ClueSystem.submitPassword (s : ClueSystem) : Outcome × ClueSystem :=
  let (result, ps) := s.passwordSystem.submitPassword
  if result.success then
    (result,
     { s with
       passwordSystem := ps
       gameState := (s.gameState.setFlag "safeOpened" true).set
         "safePasswordKnown" true })
  else
    (result, { s with passwordSystem := ps })

/-- ClueSystem.getPasswordDisplay(). -/
def ClueSystem.getPasswordDisplay (s : ClueSystem) : String :=
  s.passwordSystem.getDisplay

/-- ClueSystem.getInventory(). -/
def ClueSystem.getInventory (s : ClueSystem) : List Item :=
  s.inventory.getAllItems

/-- ClueSystem.hasItem(itemId). -/
def ClueSystem.hasItem (s : ClueSystem) (itemId : String) : Bool :=
  s.inventory.hasItem itemId

/-- ClueSystem.isGameComplete(). -/
def ClueSystem.isGameComplete (s : ClueSystem) : Bool :=
  s.gameState.get "gameComplete"

/-- Run: interact with the trash bin on a fresh system (all actions of
trash_search succeed). -/
def interactTrashRun : Outcome × ClueSystem :=
  ClueSystem.init.interact "trash_bin"

/-- The executed flags of an object's interactions, for observing the
effect of a dispatch. -/
def executedFlags (s : ClueSystem) (objectId : String) : Option (List Bool) :=
  (s.findObject objectId).map (fun o => o.interactions.map (fun i => i.executed))

/-- Run: enter the expected code 9-4-2-7 on a fresh system. -/
def submitRunStart : ClueSystem :=
  ((((ClueSystem.init.enterPasswordDigit '9').2.enterPasswordDigit
      '4').2.enterPasswordDigit '2').2.enterPasswordDigit '7').2

/-- Run: submit the correct code. -/
def submitRun : Outcome × ClueSystem :=
  submitRunStart.submitPassword

/-- Run: fresh system granted small_key through the engine. -/
def drawerRunStart : ClueSystem :=
  (ClueSystem.init.executeAction (.give_item "small_key")).2

/-- Run: interact with the drawer while holding small_key. -/
def drawerRun : Outcome × ClueSystem :=
  drawerRunStart.interact "desk_drawer"

/-- Run: fresh system with the inventory cleared. -/
def clearedRun : ClueSystem :=
  { ClueSystem.init with inventory := ClueSystem.init.inventory.clear }

/-- Run: interact with the drawer with an empty inventory. -/
def clearedDrawerRun : Outcome × ClueSystem :=
  clearedRun.interact "desk_drawer"

/-- Lock trace: fresh lock, wrong digits 1-2-3-4 entered. -/
def lockTrace0 : PasswordSystem :=
  (((((PasswordSystem.mkInit "9427").enterDigit '1').2.enterDigit
      '2').2.enterDigit '3').2.enterDigit '4').2

/-- Lock trace: state after the first wrong submission. -/
def lockTrace1 : PasswordSystem := lockTrace0.submitPassword.2

/-- Lock trace: state after the second wrong submission. -/
def lockTrace2 : PasswordSystem := lockTrace1.submitPassword.2

/-- Lock trace: third wrong submission (outcome and state). -/
def lockTrace3 : Outcome × PasswordSystem := lockTrace2.submitPassword

/-- A concrete active lock holding a full mismatched code. -/
def psW : PasswordSystem :=
  { correctPassword := "9427", enteredPassword := "1234", maxAttempts := 3,
    attemptsLeft := 3, locked := false }

/-- A concrete active lock with two entered digits. -/
def psA : PasswordSystem :=
  { correctPassword := "9427", enteredPassword := "12", maxAttempts := 3,
    attemptsLeft := 3, locked := false }

/-- Another lock with two entered digits but different code, digits and
attempts. -/
def psB : PasswordSystem :=
  { correctPassword := "0000", enteredPassword := "98", maxAttempts := 3,
    attemptsLeft := 2, locked := false }

/-- Inventory holding one consumable item under id small_key. -/
def invDupConsumable : Inventory :=
  { items := [smallKeyItem], maxSlots := 20 }

/-- Inventory holding one collectable, non-consumable item. -/
def invDupCollectable : Inventory :=
  { items := [crumpledPaperItem], maxSlots := 20 }

/-- Pushing a character grows a string by exactly one. -/
theorem string_length_push (s : String) (c : Char) :
    (s.push c).length = s.length + 1 := by
  cases s
  simp [String.push, String.length]

/-- Map.set on an association list that already holds the key keeps the
number of entries. -/
theorem replaceById_length (l : List Item) (it ex : Item)
    (h : l.find? (fun i => i.id == it.id) = some ex) :
    (replaceById l it).length = l.length := by
  induction l with
  | nil => simp [List.find?] at h
  | cons x xs ih =>
      cases hx : (x.id == it.id) with
      | true => simp [replaceById, hx]
      | false =>
          rw [List.find?_cons_of_neg _ (by simp [hx])] at h
          simp [replaceById, hx, ih h]

/-- After Map.set on a held key, looking the key up yields the new item. -/
theorem replaceById_find (l : List Item) (it ex : Item)
    (h : l.find? (fun i => i.id == it.id) = some ex) :
    (replaceById l it).find? (fun i => i.id == it.id) = some it := by
  induction l with
  | nil => simp [List.find?] at h
  | cons x xs ih =>
      cases hx : (x.id == it.id) with
      | true => simp [replaceById, hx]
      | false =>
          rw [List.find?_cons_of_neg _ (by simp [hx])] at h
          simp only [replaceById, hx, Bool.false_eq_true, if_false]
          rw [List.find?_cons_of_neg _ (by simp [hx])]
          exact ih h

/-- Claim C1: on a fresh run, `interact "trash_bin"` satisfies all
conditions and every action succeeds; the engine marks the dispatched
interaction executed, but the returned outcome is the fixed generic
record `success=true, message="操作完成"` with no `type`/`title` fields —
not the outcome of the last executed `show_message` action. -/
theorem interact_all_success_returns_generic_record :
    interactTrashRun.1.success = true ∧
    interactTrashRun.1.message = some "操作完成" ∧
    interactTrashRun.1.type = none ∧
    interactTrashRun.1.title = none ∧
    executedFlags interactTrashRun.2 "trash_bin" = some [true] :=
  ⟨rfl, rfl, rfl, rfl, rfl⟩

/-- Claim C2 (counterexample): entering the expected code 9-4-2-7 and
submitting reports success, yet golden_key — the item the nested
success-action list would grant — is not held afterwards: the engine never
executes `check_password`'s `successActions`. -/
theorem submitPassword_success_without_golden_key :
    submitRun.1.success = true ∧
    submitRun.2.hasItem "golden_key" = false :=
  ⟨rfl, rfl⟩

/-- Claim C2 (amended): a successful `submitPassword` sets the `safeOpened`
flag and the `safePasswordKnown` state, but does not trigger the nested
success-action list, so the inventory is unchanged and golden_key is not
held; running the nested actions is left to an external caller. -/
theorem submitPassword_success_sets_flags_only :
    submitRun.1.success = true ∧
    submitRun.2.gameState.hasFlag "safeOpened" = true ∧
    submitRun.2.gameState.get "safePasswordKnown" = true ∧
    submitRun.2.hasItem "golden_key" = false ∧
    submitRun.2.inventory = submitRunStart.inventory :=
  ⟨rfl, rfl, rfl, rfl, rfl⟩

/-- Claim C3: on a fresh run holding small_key, `interact "desk_drawer"`
consumes small_key and grants diary, but the returned outcome is the
generic completion record with no `type`/`item` field — not an
`item_received` outcome carrying diary, contradicting the repository's own
unit test testWithKeySuccess. -/
theorem drawer_with_key_returns_generic_record :
    drawerRun.1.success = true ∧
    drawerRun.1.type = none ∧
    drawerRun.1.item = none ∧
    drawerRun.1.message = some "操作完成" ∧
    drawerRun.2.hasItem "small_key" = false ∧
    drawerRun.2.hasItem "diary" = true :=
  ⟨rfl, rfl, rfl, rfl, rfl, rfl⟩

/-- Claim C5: on a fresh run with the inventory cleared,
`interact "desk_drawer"` fails with a `requirement_missing` outcome whose
message is exactly "❌ 需要小钥匙", and the whole run state — in particular
the inventory — is unchanged. -/
theorem drawer_without_key_requirement_missing :
    clearedDrawerRun.1.success = false ∧
    clearedDrawerRun.1.type = some "requirement_missing" ∧
    clearedDrawerRun.1.message = some "❌ 需要小钥匙" ∧
    clearedDrawerRun.2 = clearedRun :=
  ⟨rfl, rfl, rfl, rfl⟩

/-- Claim C8: interacting with an object id that is absent from the scene
graph returns the structured failure outcome "错误：对象不存在" and returns
the run state unchanged (inventory, game state and lock untouched). -/
theorem interact_unknown_object_outcome :
    ∀ (s : ClueSystem) (objectId : String),
      s.findObject objectId = none →
      s.interact objectId =
        ({ success := false, message := some "错误：对象不存在" }, s) := by
  intro s objectId h
  simp [ClueSystem.interact, h]

/-- Witness for C8: "mirror" is not a scene object of the fresh run. -/
theorem interact_unknown_object_outcome_witness :
    ClueSystem.init.findObject "mirror" = none ∧
    ClueSystem.init.interact "mirror" =
      ({ success := false, message := some "错误：对象不存在" },
       ClueSystem.init) :=
  ⟨rfl, interact_unknown_object_outcome ClueSystem.init "mirror" rfl⟩

/-- Claim C4: on an unlocked lock, submitting a mismatched code fails,
decrements attemptsLeft by exactly 1 and clears the entered digits; when
the attempts are exhausted the lock transitions to locked and that outcome
is flagged locked=true; once locked, every enterDigit/submitPassword call
returns the locked failure and leaves the state unchanged; reset restores
a fresh lock.  The concrete trace runs a fresh 3-attempt lock through
three consecutive wrong submissions. -/
theorem passwordSystem_wrong_submission_lockout :
    (∀ ps : PasswordSystem, ps.locked = false →
        ps.enteredPassword ≠ ps.correctPassword →
        ((ps.submitPassword).1.success = false ∧
         (ps.submitPassword).2.attemptsLeft = ps.attemptsLeft - 1 ∧
         (ps.submitPassword).2.enteredPassword = "" ∧
         (ps.attemptsLeft - 1 ≤ 0 →
            (ps.submitPassword).2.locked = true ∧
            (ps.submitPassword).1.locked = some true) ∧
         (¬ ps.attemptsLeft - 1 ≤ 0 → (ps.submitPassword).2.locked = false))) ∧
    (∀ (ps : PasswordSystem) (d : Char), ps.locked = true →
        ps.enterDigit d =
          ({ success := false, message := some "密码锁已锁定" }, ps)) ∧
    (∀ ps : PasswordSystem, ps.locked = true →
        ps.submitPassword =
          ({ success := false, message := some "密码锁已锁定" }, ps)) ∧
    (∀ ps : PasswordSystem, (ps.reset).enteredPassword = "" ∧
        (ps.reset).attemptsLeft = ps.maxAttempts ∧ (ps.reset).locked = false) ∧
    (lockTrace1.attemptsLeft = 2 ∧ lockTrace1.enteredPassword = "" ∧
     lockTrace2.attemptsLeft = 1 ∧
     lockTrace3.1.success = false ∧ lockTrace3.1.locked = some true ∧
     lockTrace3.2.locked = true ∧
     (lockTrace3.2.enterDigit '1').1.success = false ∧
     (lockTrace3.2.enterDigit '1').2 = lockTrace3.2 ∧
     (lockTrace3.2.submitPassword).1.success = false ∧
     (lockTrace3.2.submitPassword).2 = lockTrace3.2 ∧
     (lockTrace3.2.reset).locked = false ∧
     (lockTrace3.2.reset).attemptsLeft = 3) := by
  refine ⟨?_, ?_, ?_, ?_, ?_⟩
  · intro ps h1 h2
    have hbeq : (ps.enteredPassword == ps.correctPassword) = false := by
      simp [h2]
    by_cases hle : ps.attemptsLeft - 1 ≤ 0
    · simp [PasswordSystem.submitPassword, h1, hbeq, hle]
    · simp [PasswordSystem.submitPassword, h1, hbeq, hle]
  · intro ps d h
    simp [PasswordSystem.enterDigit, h]
  · intro ps h
    simp [PasswordSystem.submitPassword, h]
  · intro ps
    exact ⟨rfl, rfl, rfl⟩
  · exact ⟨rfl, rfl, rfl, rfl, rfl, rfl, rfl, rfl, rfl, rfl, rfl, rfl⟩

/-- Witness for C4: the fresh lock holding the mismatched code 1234. -/
theorem passwordSystem_wrong_submission_lockout_witness :
    (psW.locked = false ∧ psW.enteredPassword ≠ psW.correctPassword) ∧
    ((psW.submitPassword).1.success = false ∧
     (psW.submitPassword).2.attemptsLeft = psW.attemptsLeft - 1 ∧
     (psW.submitPassword).2.enteredPassword = "" ∧
     (psW.attemptsLeft - 1 ≤ 0 →
        (psW.submitPassword).2.locked = true ∧
        (psW.submitPassword).1.locked = some true) ∧
     (¬ psW.attemptsLeft - 1 ≤ 0 → (psW.submitPassword).2.locked = false)) :=
  ⟨⟨rfl, by decide⟩,
   passwordSystem_wrong_submission_lockout.1 psW rfl (by decide)⟩

/-- Claim C6: granting an item id that is in the catalog and already held
returns the success outcome tagged item_owned and leaves the whole run
state — inventory contents and count included — unchanged, whatever the
inventory's fill level. -/
theorem give_item_already_owned_idempotent :
    ∀ (s : ClueSystem) (itemId : String) (item : Item),
      catalogItems itemId = some item →
      s.inventory.hasItem item.id = true →
      s.executeAction (.give_item itemId) =
        ({ success := true, type := some "item_owned", item := some item },
         s) := by
  intro s itemId item hcat hhas
  simp [ClueSystem.executeAction, hcat, hhas]

/-- Witness for C6: a run already holding small_key. -/
theorem give_item_already_owned_idempotent_witness :
    (catalogItems "small_key" = some smallKeyItem ∧
     drawerRunStart.inventory.hasItem smallKeyItem.id = true) ∧
    drawerRunStart.executeAction (.give_item "small_key") =
      ({ success := true, type := some "item_owned",
         item := some smallKeyItem }, drawerRunStart) :=
  ⟨⟨rfl, rfl⟩,
   give_item_already_owned_idempotent drawerRunStart "small_key"
     smallKeyItem rfl rfl⟩

/-- Claim C7: every lock operation preserves the invariant that the
entered string is no longer than the expected code, and entering a digit
when the entered string already has the expected length is rejected with
the "密码已满" (full) outcome without changing the state. -/
theorem entered_length_invariant :
    (∀ (ps : PasswordSystem) (d : Char),
        ps.enteredPassword.length ≤ ps.correctPassword.length →
        ((ps.enterDigit d).2).enteredPassword.length ≤
          ((ps.enterDigit d).2).correctPassword.length) ∧
    (∀ ps : PasswordSystem,
        ps.enteredPassword.length ≤ ps.correctPassword.length →
        ((ps.submitPassword).2).enteredPassword.length ≤
          ((ps.submitPassword).2).correctPassword.length) ∧
    (∀ ps : PasswordSystem,
        (ps.reset).enteredPassword.length ≤
          (ps.reset).correctPassword.length) ∧
    (∀ (ps : PasswordSystem) (d : Char), ps.locked = false →
        ps.enteredPassword.length = ps.correctPassword.length →
        ps.enterDigit d =
          ({ success := false, message := some "密码已满" }, ps)) := by
  refine ⟨?_, ?_, ?_, ?_⟩
  · intro ps d h
    cases hl : ps.locked with
    | true => simpa [PasswordSystem.enterDigit, hl] using h
    | false =>
        by_cases hlt :
            ps.enteredPassword.length < ps.correctPassword.length
        · simp [PasswordSystem.enterDigit, hl, hlt, string_length_push]
          omega
        · simpa [PasswordSystem.enterDigit, hl, hlt] using h
  · intro ps h
    cases hl : ps.locked with
    | true => simpa [PasswordSystem.submitPassword, hl] using h
    | false =>
        cases heq : ps.enteredPassword == ps.correctPassword with
        | true =>
            simp [PasswordSystem.submitPassword, hl, heq, PasswordSystem.reset]
        | false =>
            by_cases hle : ps.attemptsLeft - 1 ≤ 0
            · simp [PasswordSystem.submitPassword, hl, heq, hle]
            · simp [PasswordSystem.submitPassword, hl, heq, hle]
  · intro ps
    exact Nat.zero_le _
  · intro ps d h1 h2
    have hlt : ¬ ps.enteredPassword.length < ps.correctPassword.length := by
      omega
    simp [PasswordSystem.enterDigit, h1, hlt]

/-- Witness for C7: lock with full mismatched code 1234 against 9427. -/
theorem entered_length_invariant_witness :
    (psW.enteredPassword.length ≤ psW.correctPassword.length ∧
     psW.locked = false ∧
     psW.enteredPassword.length = psW.correctPassword.length) ∧
    ((psW.enterDigit '5').2).enteredPassword.length ≤
      ((psW.enterDigit '5').2).correctPassword.length ∧
    ((psW.submitPassword).2).enteredPassword.length ≤
      ((psW.submitPassword).2).correctPassword.length ∧
    psW.enterDigit '5' =
      ({ success := false, message := some "密码已满" }, psW) :=
  ⟨⟨by decide, rfl, by decide⟩,
   entered_length_invariant.1 psW '5' (by decide),
   entered_length_invariant.2.1 psW (by decide),
   entered_length_invariant.2.2.2 psW '5' rfl (by decide)⟩

/-- Claim C9: the password display is one mask character per entered
digit: its length equals the entered length, and any two lock states whose
entered strings have equal length display the same string — the display
depends only on the count of entered digits. -/
theorem getDisplay_masks_only_length :
    (∀ ps : PasswordSystem,
        (ps.getDisplay).length = ps.enteredPassword.length) ∧
    (∀ ps1 ps2 : PasswordSystem,
        ps1.enteredPassword.length = ps2.enteredPassword.length →
        ps1.getDisplay = ps2.getDisplay) := by
  constructor
  · intro ps
    simp [PasswordSystem.getDisplay]
  · intro ps1 ps2 h
    simp [PasswordSystem.getDisplay, h]

/-- Witness for C9: two locks with different codes, digits and attempts
but equally many entered digits display identically. -/
theorem getDisplay_masks_only_length_witness :
    psA.enteredPassword.length = psB.enteredPassword.length ∧
    psA.getDisplay = psB.getDisplay :=
  ⟨rfl, getDisplay_masks_only_length.2 psA psB rfl⟩

/-- Claim C10: with capacity available, addItem on a held identifier is
rejected exactly when the stored item is collectable and not consumable;
when the stored item is consumable the call succeeds, replaces the stored
item with the new one, and leaves the item count unchanged. -/
theorem addItem_duplicate_policy :
    (∀ (inv : Inventory) (item existingItem : Item),
        inv.items.length < inv.maxSlots →
        inv.getItem item.id = some existingItem →
        existingItem.canCollect = true → existingItem.consumable = false →
        inv.addItem item = (false, inv)) ∧
    (∀ (inv : Inventory) (item existingItem : Item),
        inv.items.length < inv.maxSlots →
        inv.getItem item.id = some existingItem →
        existingItem.consumable = true →
        ((inv.addItem item).1 = true ∧
         (inv.addItem item).2.getItem item.id = some item ∧
         (inv.addItem item).2.getItemCount = inv.getItemCount)) ∧
    (∀ (inv : Inventory) (item existingItem : Item),
        inv.items.length < inv.maxSlots →
        inv.getItem item.id = some existingItem →
        (inv.addItem item).1 = false →
        existingItem.canCollect = true ∧ existingItem.consumable = false) := by
  refine ⟨?_, ?_, ?_⟩
  · intro inv item ex hcap hget hcc hcons
    have hn : ¬ inv.maxSlots ≤ inv.items.length := Nat.not_le.mpr hcap
    simp [Inventory.addItem, hn, hget, hcc, hcons]
  · intro inv item ex hcap hget hcons
    have hn : ¬ inv.maxSlots ≤ inv.items.length := Nat.not_le.mpr hcap
    have hget' : List.find? (fun i => i.id == item.id) inv.items = some ex :=
      hget
    have hred : inv.addItem item =
        (true, { inv with items := replaceById inv.items item }) := by
      simp [Inventory.addItem, hn, hget, hcons]
    refine ⟨?_, ?_, ?_⟩
    · simp [hred]
    · simp [hred, Inventory.getItem]
      exact replaceById_find inv.items item ex hget'
    · simp [hred, Inventory.getItemCount]
      exact replaceById_length inv.items item ex hget'
  · intro inv item ex hcap hget hfalse
    have hn : ¬ inv.maxSlots ≤ inv.items.length := Nat.not_le.mpr hcap
    cases hcond : (ex.canCollect && !ex.consumable) with
    | true =>
        have h2 : ex.canCollect = true ∧ (!ex.consumable) = true := by
          simpa using hcond
        exact ⟨h2.1, by simpa using h2.2⟩
    | false =>
        exfalso
        simp [Inventory.addItem, hn, hget, hcond] at hfalse

/-- Witness for C10: a collectable non-consumable duplicate is rejected;
a consumable duplicate is replaced with the count unchanged. -/
theorem addItem_duplicate_policy_witness :
    (invDupCollectable.items.length < invDupCollectable.maxSlots ∧
     invDupCollectable.getItem crumpledPaperItem.id = some crumpledPaperItem ∧
     crumpledPaperItem.canCollect = true ∧
     crumpledPaperItem.consumable = false ∧
     invDupCollectable.addItem crumpledPaperItem =
       (false, invDupCollectable)) ∧
    (invDupConsumable.items.length < invDupConsumable.maxSlots ∧
     invDupConsumable.getItem smallKeyItem.id = some smallKeyItem ∧
     smallKeyItem.consumable = true ∧
     (invDupConsumable.addItem smallKeyItem).1 = true ∧
     (invDupConsumable.addItem smallKeyItem).2.getItem smallKeyItem.id =
       some smallKeyItem ∧
     (invDupConsumable.addItem smallKeyItem).2.getItemCount =
       invDupConsumable.getItemCount) :=
  ⟨⟨by decide, rfl, rfl, rfl,
    addItem_duplicate_policy.1 invDupCollectable crumpledPaperItem
      crumpledPaperItem (by decide) rfl rfl rfl⟩,
   ⟨by decide, rfl, rfl,
    (addItem_duplicate_policy.2.1 invDupConsumable smallKeyItem smallKeyItem
      (by decide) rfl rfl).1,
    (addItem_duplicate_policy.2.1 invDupConsumable smallKeyItem smallKeyItem
      (by decide) rfl rfl).2.1,
    (addItem_duplicate_policy.2.1 invDupConsumable smallKeyItem smallKeyItem
      (by decide) rfl rfl).2.2⟩⟩
